import Mathlib

/-!
Shallow embedding of the dokopalsya_bot fact-checking pipeline.

The Python sources embedded here are:
  * `app/factcheck/factcheck.py`   — tool registry, per-claim dispatch, batch verification,
    session processing;
  * `app/factcheck/extractor.py`   — claim extraction from model output;
  * `app/factcheck/tools/google.py`     — Google Fact Check Tools verifier;
  * `app/factcheck/tools/perplexity.py` — Perplexity verifier with retry loop;
  * `app/models/claim_models.py`   — the pydantic data model.

Modelling conventions:
  * machine effects (LLM completions, HTTP calls) are parameters (oracles) of the
    embedded functions; a function that can raise a Python exception returns
    `Except String α`, the error being the exception text;
  * `datetime.now(UTC)` is modelled by an explicit `now : Nat` instant; `uuid4` values
    are modelled by `Nat` identifiers, `str(uuid)` by `toString`;
  * Python strings containing single-quote characters are modelled with the quotes
    elided (the embedding never needs the exact quoting of exception texts);
  * pydantic validation of a model is a function `Json → Except String α` that demands
    required fields, accepts missing optional fields, and ignores extra keys (pydantic
    v2 default `extra = ignore`).
-/

/-- JSON values, as produced by `json.loads` / `json_repair.loads`.
Numbers are modelled as integers (no claim involves fractional numbers). -/
inductive Json where
  | null : Json
  | bool (b : Bool) : Json
  | num (n : Int) : Json
  | str (s : String) : Json
  | arr (elems : List Json) : Json
  | obj (fields : List (String × Json)) : Json

/-- Whitespace characters skipped by the JSON grammar. -/
def isJsonWs (c : Char) : Bool :=
  c == ' ' || c == '\n' || c == '\t' || c == '\r'

/-- Drop leading JSON whitespace. -/
def skipWs : List Char → List Char
  | [] => []
  | c :: cs => if isJsonWs c then skipWs cs else c :: cs

/-- Resolve a character following a backslash inside a JSON string literal.
Only the escapes needed by the embedded payloads are modelled; `\uXXXX` is not. -/
def unescapeChar (c : Char) : Char :=
  if c == 'n' then '\n' else if c == 't' then '\t' else c

/-- Parse the body of a JSON string literal (the opening quote already consumed),
returning the decoded characters and the rest of the input. -/
def parseStrChars : List Char → Option (List Char × List Char)
  | [] => none
  | c :: cs =>
    if c == '"' then some ([], cs)
    else if c == '\\' then
      match cs with
      | [] => none
      | e :: cs' =>
        match parseStrChars cs' with
        | some (body, rest) => some (unescapeChar e :: body, rest)
        | none => none
    else
      match parseStrChars cs with
      | some (body, rest) => some (c :: body, rest)
      | none => none

/-- Accumulate a run of decimal digits. -/
def parseNatAcc (acc : Nat) : List Char → Nat × List Char
  | [] => (acc, [])
  | c :: cs =>
    if c.isDigit then parseNatAcc (acc * 10 + (c.toNat - 48)) cs else (acc, c :: cs)

mutual

/-- Recursive-descent JSON value parser.  `lenient = false` models Python's strict
`json.loads`; `lenient = true` additionally tolerates trailing commas in objects and
arrays, which models the structural repair performed by the external `json_repair`
library on the payloads the claims exercise. -/
def parseValue (lenient : Bool) : Nat → List Char → Option (Json × List Char)
  | 0, _ => none
  | fuel + 1, cs =>
    match skipWs cs with
    | '"' :: cs' =>
      match parseStrChars cs' with
      | some (body, rest) => some (.str (String.mk body), rest)
      | none => none
    | '\x7b' :: cs' =>
      match skipWs cs' with
      | '\x7d' :: rest => some (.obj [], rest)
      | _ =>
        match parseMembers lenient fuel cs' with
        | some (fields, rest) => some (.obj fields, rest)
        | none => none
    | '[' :: cs' =>
      match skipWs cs' with
      | ']' :: rest => some (.arr [], rest)
      | _ =>
        match parseElems lenient fuel cs' with
        | some (elems, rest) => some (.arr elems, rest)
        | none => none
    | 't' :: 'r' :: 'u' :: 'e' :: rest => some (.bool true, rest)
    | 'f' :: 'a' :: 'l' :: 's' :: 'e' :: rest => some (.bool false, rest)
    | 'n' :: 'u' :: 'l' :: 'l' :: rest => some (.null, rest)
    | '-' :: c :: cs' =>
      if c.isDigit then
        match parseNatAcc (c.toNat - 48) cs' with
        | (n, rest) => some (.num (-(n : Int)), rest)
      else none
    | c :: cs' =>
      if c.isDigit then
        match parseNatAcc (c.toNat - 48) cs' with
        | (n, rest) => some (.num (n : Int), rest)
      else none
    | [] => none

/-- Parse the members of a JSON object (after the opening brace). -/
def parseMembers (lenient : Bool) : Nat → List Char → Option (List (String × Json) × List Char)
  | 0, _ => none
  | fuel + 1, cs =>
    match skipWs cs with
    | '"' :: cs' =>
      match parseStrChars cs' with
      | some (key, r1) =>
        match skipWs r1 with
        | ':' :: r2 =>
          match parseValue lenient fuel r2 with
          | some (v, r3) =>
            match skipWs r3 with
            | ',' :: r4 =>
              match skipWs r4 with
              | '\x7d' :: r5 =>
                if lenient then some ([(String.mk key, v)], r5) else none
              | _ =>
                match parseMembers lenient fuel r4 with
                | some (fields, r5) => some ((String.mk key, v) :: fields, r5)
                | none => none
            | '\x7d' :: r4 => some ([(String.mk key, v)], r4)
            | _ => none
          | none => none
        | _ => none
      | none => none
    | _ => none

/-- Parse the elements of a JSON array (after the opening bracket). -/
def parseElems (lenient : Bool) : Nat → List Char → Option (List Json × List Char)
  | 0, _ => none
  | fuel + 1, cs =>
    match parseValue lenient fuel cs with
    | some (v, r1) =>
      match skipWs r1 with
      | ',' :: r2 =>
        match skipWs r2 with
        | ']' :: r3 => if lenient then some ([v], r3) else none
        | _ =>
          match parseElems lenient fuel r2 with
          | some (elems, r3) => some (v :: elems, r3)
          | none => none
      | ']' :: r2 => some ([v], r2)
      | _ => none
    | none => none

end

/-- Python `json.loads`: strict parse of the whole input, `none` models
`json.JSONDecodeError`. -/
def json_loads (s : String) : Option Json :=
  match parseValue false (s.length + 1) s.toList with
  | some (v, rest) => if (skipWs rest).isEmpty then some v else none
  | none => none

/-- `json_repair.loads`: lenient parse of the whole input, repairing trailing
commas. `none` models the (rare) case where even repair yields nothing usable. -/
def json_repair_loads (s : String) : Option Json :=
  match parseValue true (s.length + 1) s.toList with
  | some (v, rest) => if (skipWs rest).isEmpty then some v else none
  | none => none

/-- Field access on a JSON object (Python `parsed[key]` / `key in parsed`). -/
def Json.getField (j : Json) (key : String) : Option Json :=
  match j with
  | .obj fields => fields.lookup key
  | _ => none

/-- Python `parsed[key] = value` on a dict. -/
def Json.setField (j : Json) (key : String) (v : Json) : Json :=
  match j with
  | .obj fields => .obj ((key, v) :: fields.filter (fun p => p.1 != key))
  | other => other

/-! ## Data model (`app/models/claim_models.py`) -/

/-- `Claim`: `id` is a `uuid4` modelled as a `Nat`; `content` is the claim text;
`extracted_at` an optional timestamp. -/
structure Claim where
  id : Nat
  content : String
  extracted_at : Option Nat := none
deriving DecidableEq, Repr

/-- `ExtractedClaims`: the shape the extractor validates model output against.
All three fields are declared required (`Field(...)`) in the source. -/
structure ExtractedClaims where
  original : String
  english : String
  claims : List String
deriving DecidableEq, Repr

/-- `GoogleClaimReview`: the `publisher` dict is modelled by its only used entry,
`site`; `review_date` (`datetime.fromisoformat` of `reviewDate`) is modelled by the
ISO string itself. -/
structure GoogleClaimReview where
  publisher_site : String
  url : String
  title : String
  review_date : Option String := none
  textual_rating : String
  language_code : String
deriving DecidableEq, Repr

/-- `PerplexitySource`. -/
structure PerplexitySource where
  name : String
  content : String
  url : Option String := none
deriving DecidableEq, Repr

/-- `PerplexityVerification`. -/
structure PerplexityVerification where
  source : List PerplexitySource
  conclusion : String
deriving DecidableEq, Repr

/-- `PerplexityClaimsReviewItem`. -/
structure PerplexityClaimsReviewItem where
  claim : String
  verification : PerplexityVerification
deriving DecidableEq, Repr

/-- `PerplexityClaimsReview` (= `PerplexityResponse`): `claim_reviews` is required,
`citations` defaults to `None`. -/
structure PerplexityClaimsReview where
  claim_reviews : List PerplexityClaimsReviewItem
  citations : Option (List String) := none
deriving DecidableEq, Repr

/-- `VerificationResult`. `verified_at` is the `datetime.now(UTC)` stamp, modelled by
the `now` instant passed to the constructing function. -/
structure VerificationResult where
  claim_id : String
  claim : String
  google_claim_reviews : Option (List GoogleClaimReview) := none
  perplexity_claim_reviews : Option PerplexityClaimsReview := none
  error : Option String := none
  verified_at : Option Nat := none
deriving DecidableEq, Repr

/-- `FactCheckSession`. `session_id` is a `uuid4` modelled as a `Nat`. -/
structure FactCheckSession where
  user_id : String
  session_id : Nat
  original_text : String
  claims : List Claim := []
  verification_results : List VerificationResult := []
  created_at : Option Nat := none
  completed_at : Option Nat := none
deriving DecidableEq, Repr

/-! ## Pydantic validators

Each validator maps a `Json` value to `Except String α`, mirroring pydantic v2
validation of the corresponding model: required fields must be present with the
declared type, optional fields accept absence or `null`, extra keys are ignored. -/

/-- Validate a JSON value as `List[str]`. -/
def strListOfJson : Json → Option (List String)
  | .arr elems => elems.mapM (fun e => match e with | .str s => some s | _ => none)
  | _ => none

/-- Read a required `str` field. -/
def reqStrField (j : Json) (key : String) : Option String :=
  match j.getField key with
  | some (.str s) => some s
  | _ => none

/-- Read an `Optional[str]` field defaulting to `None`. -/
def optStrField (j : Json) (key : String) : Option (Option String) :=
  match j.getField key with
  | none => some none
  | some .null => some none
  | some (.str s) => some (some s)
  | some _ => none

/-- `ExtractedClaims.model_validate` / `ExtractedClaims(**kwargs)`: `original`,
`english` and `claims` are all required. -/
def ExtractedClaims.validate (j : Json) : Except String ExtractedClaims :=
  match reqStrField j "original", reqStrField j "english" with
  | some o, some e =>
    match j.getField "claims" with
    | some c =>
      match strListOfJson c with
      | some cl => .ok ⟨o, e, cl⟩
      | none => .error "validation error for ExtractedClaims: claims"
    | none => .error "validation error for ExtractedClaims: claims field required"
  | _, _ => .error "validation error for ExtractedClaims: original and english field required"

/-- Validate a JSON value as `PerplexitySource`. -/
def PerplexitySource.validate (j : Json) : Option PerplexitySource :=
  match reqStrField j "name", reqStrField j "content", optStrField j "url" with
  | some n, some c, some u => some ⟨n, c, u⟩
  | _, _, _ => none

/-- Validate a JSON value as `PerplexityVerification`. -/
def PerplexityVerification.validate (j : Json) : Option PerplexityVerification :=
  match j.getField "source", reqStrField j "conclusion" with
  | some (.arr srcs), some concl =>
    match srcs.mapM PerplexitySource.validate with
    | some ss => some ⟨ss, concl⟩
    | none => none
  | _, _ => none

/-- Validate a JSON value as `PerplexityClaimsReviewItem`. -/
def PerplexityClaimsReviewItem.validate (j : Json) : Option PerplexityClaimsReviewItem :=
  match reqStrField j "claim", j.getField "verification" with
  | some c, some v =>
    match PerplexityVerification.validate v with
    | some pv => some ⟨c, pv⟩
    | none => none
  | _, _ => none

/-- `PerplexityClaimsReview(**parsed_content)`: `claim_reviews` is a required list of
review items; `citations` is optional, defaulting to `None`. -/
def PerplexityClaimsReview.validate (j : Json) : Except String PerplexityClaimsReview :=
  match j.getField "claim_reviews" with
  | some (.arr items) =>
    match items.mapM PerplexityClaimsReviewItem.validate with
    | some revs =>
      match j.getField "citations" with
      | none => .ok ⟨revs, none⟩
      | some .null => .ok ⟨revs, none⟩
      | some c =>
        match strListOfJson c with
        | some cits => .ok ⟨revs, some cits⟩
        | none => .error "Failed to validate parsed content: citations"
    | none => .error "Failed to validate parsed content: claim_reviews"
  | _ => .error "Failed to validate parsed content: claim_reviews field required"

/-! ## Claim extraction (`app/factcheck/extractor.py`) -/

/-- What the single `perform_litellm_completion` call inside `extract_claims` does:
raise, return a falsy response, return a response whose message content is falsy,
or return content text. -/
inductive ExtractCompletionOutcome where
  | raises (msg : String)
  | noResponse
  | noContent
  | content (raw : String)

/-- The module-level effects `extract_claims` depends on: the `get_prompt` lookup and
the completion call. -/
structure ExtractEnv where
  prompt : Option String
  completion : ExtractCompletionOutcome

/-- `Claim(content=...)` construction for each extracted string: the fresh `uuid4`
identifiers are modelled as positional indices. -/
def claimsOfContents (startId : Nat) : List String → List Claim
  | [] => []
  | s :: rest => ⟨startId, s, none⟩ :: claimsOfContents (startId + 1) rest

/-- `extract_claims(text, short_user_id, trace_id)` from `extractor.py`.

Returns the extracted claims paired with the number of completion calls issued.
The body mirrors the source: falsy `text` returns `[]` before any completion call;
a missing prompt returns `[]`; then one completion call is made; its content is
parsed with `json.loads`, falling back to `json_repair.loads`; a dict with a
`claims` key is validated as `ExtractedClaims`, anything else is wrapped into
`ExtractedClaims(claims=...)` (which also validates); every failure path returns
`[]`. -/
def extract_claims (env : ExtractEnv) (text : Option String)
    (short_user_id trace_id : String) : List Claim × Nat :=
  match text with
  | none => ([], 0)
  | some t =>
    if t = "" then ([], 0)
    else
      match env.prompt with
      | none => ([], 0)
      | some _ =>
        match env.completion with
        | .raises _ => ([], 1)
        | .noResponse => ([], 1)
        | .noContent => ([], 1)
        | .content raw =>
          let parsed? :=
            match json_loads raw with
            | some v => some v
            | none => json_repair_loads raw
          match parsed? with
          | none => ([], 1)
          | some parsed =>
            let validated :=
              match parsed with
              | .obj fields =>
                if (Json.obj fields).getField "claims" |>.isSome then
                  ExtractedClaims.validate (.obj fields)
                else
                  ExtractedClaims.validate (.obj [("claims", .arr [.obj fields])])
              | .arr elems =>
                ExtractedClaims.validate (.obj [("claims", .arr elems)])
              | other =>
                ExtractedClaims.validate (.obj [("claims", .arr [other])])
            match validated with
            | .error _ => ([], 1)
            | .ok ec => (claimsOfContents 0 ec.claims, 1)

/-! ## Perplexity verifier (`app/factcheck/tools/perplexity.py`) -/

/-- `MAX_RETRIES` from `perplexity.py`. -/
def MAX_RETRIES : Nat := 3

/-- What one `perform_litellm_completion` call inside the Perplexity retry loop does:
raise an exception, return a falsy response / empty `choices`, or return message
content together with the optional `citations` attribute. -/
inductive PerplexityCallOutcome where
  | raises (msg : String)
  | empty
  | content (raw : String) (citations : Option (List String))

/-- `parse_raw_content(raw_content, citations)`: repair-parse the raw string; demand a
dict containing `claim_reviews`; if `citations` is truthy (a non-empty list) store it
in the dict; validate as `PerplexityClaimsReview`.  A value that does not repair to a
dict at all is modelled as the missing-field `ValueError`, matching `json_repair`
returning a non-dict best-effort value for unparsable input. -/
def parse_raw_content (raw_content : String) (citations : Option (List String)) :
    Except String PerplexityClaimsReview :=
  match json_repair_loads raw_content with
  | some (.obj fields) =>
    if (Json.obj fields).getField "claim_reviews" |>.isSome then
      let withCits :=
        match citations with
        | some (c :: cs) => (Json.obj fields).setField "citations" (.arr ((c :: cs).map Json.str))
        | _ => .obj fields
      PerplexityClaimsReview.validate withCits
    else .error "Response missing required claim_reviews field"
  | _ => .error "Response missing required claim_reviews field"

/-- The terminal error raised after the retry loop of `get_perplexity_claim_reviews`
exits without a valid response. -/
def exhaustedRetriesMsg : String :=
  "No valid response from fact-check service after " ++ toString MAX_RETRIES ++ " attempts"

/-- The `for attempt in range(MAX_RETRIES)` loop of `get_perplexity_claim_reviews`,
over the list of remaining attempt indices.  On a successful parse it returns the
review together with the number of attempts consumed.  An exception or a parse
failure on the last attempt re-raises; otherwise the loop continues.  A falsy
response only logs and continues, even on the last attempt. -/
def perplexityAttemptLoop (oracle : Nat → PerplexityCallOutcome) :
    List Nat → Except String (PerplexityClaimsReview × Nat)
  | [] => .error exhaustedRetriesMsg
  | attempt :: rest =>
    match oracle attempt with
    | .raises msg =>
      if rest.isEmpty then .error msg else perplexityAttemptLoop oracle rest
    | .empty => perplexityAttemptLoop oracle rest
    | .content raw citations =>
      match parse_raw_content raw citations with
      | .ok review => .ok (review, attempt + 1)
      | .error e =>
        if rest.isEmpty then .error e else perplexityAttemptLoop oracle rest

/-- `get_perplexity_claim_reviews(claim, short_user_id, trace_id, prompt, ...)`:
runs the attempt loop over attempts `0, 1, 2`.  The claim text and tracing
arguments only affect logging and the completion request, which the oracle models. -/
def get_perplexity_claim_reviews (oracle : Nat → PerplexityCallOutcome) :
    Except String (PerplexityClaimsReview × Nat) :=
  perplexityAttemptLoop oracle (List.range MAX_RETRIES)

/-- `create_verification_result(claim, perplexity_claim_reviews, error)`. -/
def create_verification_result (claim : Claim)
    (perplexity_claim_reviews : Option PerplexityClaimsReview)
    (error : Option String) (now : Nat) : VerificationResult :=
  { claim_id := toString claim.id
    claim := claim.content
    google_claim_reviews := none
    perplexity_claim_reviews := perplexity_claim_reviews
    error := error
    verified_at := some now }

/-- `perplexity_claim_check(claim, short_user_id, trace_id)`: the Perplexity verify
entry point.  `prompt` models the `get_prompt` lookup and `oracle` the completion
backend.  The body catches every exception from `get_perplexity_claim_reviews` and
converts it into an error-carrying result, so the function always returns `.ok`. -/
def perplexity_claim_check (prompt : Option String)
    (oracle : Nat → PerplexityCallOutcome) (claim : Claim)
    (short_user_id trace_id : String) (now : Nat) : Except String VerificationResult :=
  match prompt with
  | none => .ok (create_verification_result claim none (some "Prompt not found") now)
  | some _ =>
    match get_perplexity_claim_reviews oracle with
    | .ok (review, _attempts) =>
      if review.claim_reviews.isEmpty then
        .ok (create_verification_result claim none (some "No claim reviews returned") now)
      else
        .ok (create_verification_result claim (some review) none now)
    | .error e =>
      .ok (create_verification_result claim none (some ("Error during fact-check: " ++ e)) now)

/-! ## Google verifier (`app/factcheck/tools/google.py`) -/

/-- One raw claim-review entry of the Google API response, with the fields the loop
body reads (`publisher.site`, `url`, `title`, optional `reviewDate`, `textualRating`,
`languageCode`). -/
structure GoogleRawReview where
  publisher_site : String
  url : String
  title : String
  reviewDate : Option String := none
  textualRating : String
  languageCode : String
deriving DecidableEq, Repr

/-- One entry of `response["claims"]`; `claim_data.get("GoogleClaimReview", [])` is
modelled by the (possibly empty) review list. -/
structure GoogleApiClaim where
  googleClaimReviewEntries : List GoogleRawReview
deriving DecidableEq, Repr

/-- The Google claim-search response object; `claims = none` models the `"claims"`
key being absent. -/
structure GoogleSearchResponse where
  claims : Option (List GoogleApiClaim) := none
deriving DecidableEq, Repr

/-- What the Google API interaction (`build` + `search` + `execute`) does: raise an
`HttpError`, raise some other exception, or return a response. -/
inductive GoogleApiOutcome where
  | httpError (msg : String)
  | raises (msg : String)
  | response (resp : GoogleSearchResponse)

/-- The `GoogleClaimReview` constructed by the loop body from one raw entry. -/
def googleReviewOfRaw (raw : GoogleRawReview) : GoogleClaimReview :=
  { publisher_site := raw.publisher_site
    url := raw.url
    title := raw.title
    review_date := raw.reviewDate
    textual_rating := raw.textualRating
    language_code := raw.languageCode }

/-- The `claim_reviews` list accumulated by the nested loops of `google_claim_check`:
nothing is collected unless `"claims" in response and response["claims"]` is truthy. -/
def collectGoogleReviews (resp : GoogleSearchResponse) : List GoogleClaimReview :=
  match resp.claims with
  | some (cd :: cds) =>
    (cd :: cds).flatMap (fun c => c.googleClaimReviewEntries.map googleReviewOfRaw)
  | _ => []

/-- `google_claim_check(claim)`: both `except` branches convert the exception into an
error-carrying result, so the function always returns `.ok`.  On success the review
list is stored only when non-empty (`claim_reviews if claim_reviews else None`). -/
def google_claim_check (env : GoogleApiOutcome) (claim : Claim) (now : Nat) :
    Except String VerificationResult :=
  match env with
  | .httpError msg =>
    .ok { claim_id := toString claim.id, claim := claim.content, error := some msg
          verified_at := some now }
  | .raises msg =>
    .ok { claim_id := toString claim.id, claim := claim.content, error := some msg
          verified_at := some now }
  | .response resp =>
    let claim_reviews := collectGoogleReviews resp
    .ok { claim_id := toString claim.id
          claim := claim.content
          google_claim_reviews := if claim_reviews.isEmpty then none else some claim_reviews
          perplexity_claim_reviews := none
          error := none
          verified_at := some now }

/-! ## Coordinator (`app/factcheck/factcheck.py`) -/

/-- A registered fact-check tool, together with the arity of its Python signature.
`google_claim_check` takes one positional argument, `perplexity_claim_check` takes
three; the coordinator always calls a tool with exactly two. -/
inductive FactCheckTool where
  | arity1 (f : Claim → Except String VerificationResult)
  | arity2 (f : Claim → String → Except String VerificationResult)
  | arity3 (f : Claim → String → String → Except String VerificationResult)

/-- The `TypeError` text for calling a one-parameter callable with two arguments
(the callable name is elided from the modelled message). -/
def tooManyArgsMsg : String := "takes 1 positional argument but 2 were given"

/-- The `TypeError` text for calling a three-parameter callable with two arguments. -/
def missingArgMsg : String := "missing 1 required positional argument: trace_id"

/-- The coordinator's call `tool(claim, short_user_id)` with exactly two arguments:
it succeeds only for a two-parameter tool; for the built-in tools the call itself
raises `TypeError` before the tool body runs. -/
def callWithTwoArgs (tool : FactCheckTool) (claim : Claim) (short_user_id : String) :
    Except String VerificationResult :=
  match tool with
  | .arity1 _ => .error tooManyArgsMsg
  | .arity2 f => f claim short_user_id
  | .arity3 _ => .error missingArgMsg

/-- The module-level `fact_check_tools` registry with its two built-in entries.
The environments of the two verifiers (Google API outcome, Perplexity prompt and
completion oracle) and the clock are parameters. -/
def fact_check_tools (genv : GoogleApiOutcome) (pPrompt : Option String)
    (pOracle : Nat → PerplexityCallOutcome) (now : Nat) :
    List (String × FactCheckTool) :=
  [("google", .arity1 (fun c => google_claim_check genv c now)),
   ("perplexity", .arity3 (fun c uid tid => perplexity_claim_check pPrompt pOracle c uid tid now))]

/-- The error-carrying `VerificationResult` built by `verify_single_claim` on the
unknown-tool path and in its `except` handler. -/
def mkErrorResult (claim : Claim) (e : String) (now : Nat) : VerificationResult :=
  { claim_id := toString claim.id
    claim := claim.content
    google_claim_reviews := none
    perplexity_claim_reviews := none
    error := some e
    verified_at := some now }

/-- `verify_single_claim(claim, short_user_id)`: looks up `FACT_CHECK_TOOL` in the
registry; an unknown name yields the `Unknown fact-check tool` result; otherwise the
tool is called with two arguments and any exception (including the `TypeError` from
the call itself) is converted into an error-carrying result.  The function never
raises, which its total return type makes explicit. -/
def verify_single_claim (factCheckTool : String) (tools : List (String × FactCheckTool))
    (claim : Claim) (short_user_id : String) (now : Nat) : VerificationResult :=
  match tools.lookup factCheckTool with
  | none => mkErrorResult claim ("Unknown fact-check tool: " ++ factCheckTool) now
  | some tool =>
    match callWithTwoArgs tool claim short_user_id with
    | .ok r => r
    | .error e => mkErrorResult claim e now

/-- `verify_multiple_claims(claims, short_user_id)` in one complete scheduling order:
the per-claim results in input order.  The semaphore-governed interleaving is
modelled by `BatchStep` below; every finished interleaving produces a permutation of
this list. -/
def verify_multiple_claims (factCheckTool : String)
    (tools : List (String × FactCheckTool)) (claims : List Claim)
    (short_user_id : String) (now : Nat) : List VerificationResult :=
  claims.map (fun c => verify_single_claim factCheckTool tools c short_user_id now)

/-- The shared state of the `asyncio.gather` barrier in `verify_multiple_claims`:
the claims whose `sem_verify_claim` task has not yet run, and the `results` list the
tasks append to. -/
structure BatchState where
  pending : List Claim
  results : List VerificationResult
deriving DecidableEq, Repr

/-- One scheduling step of `verify_multiple_claims`: some pending task acquires the
semaphore — possible only when `concurrency_limit ≥ 1` — runs
`verify_single_claim` for its claim, appends the result, and releases.  The acquire,
verify and append of one task are one step because the modelled verify is pure; the
choice of task models the event-loop nondeterminism. -/
inductive BatchStep (factCheckTool : String) (tools : List (String × FactCheckTool))
    (short_user_id : String) (now : Nat) (concurrency_limit : Nat) :
    BatchState → BatchState → Prop where
  | run (c : Claim) (s : BatchState) (hmem : c ∈ s.pending) (hsem : 1 ≤ concurrency_limit) :
      BatchStep factCheckTool tools short_user_id now concurrency_limit s
        ⟨s.pending.erase c,
         s.results ++ [verify_single_claim factCheckTool tools c short_user_id now]⟩

/-- Any number of scheduling steps. -/
def BatchRun (factCheckTool : String) (tools : List (String × FactCheckTool))
    (short_user_id : String) (now : Nat) (concurrency_limit : Nat) :
    BatchState → BatchState → Prop :=
  Relation.ReflTransGen (BatchStep factCheckTool tools short_user_id now concurrency_limit)

/-- The gather barrier has completed: every task has run. -/
def BatchState.finished (s : BatchState) : Prop := s.pending = []

/-! ## Session processing (`app/factcheck/factcheck.py`, `process_fact_check_session`) -/

/-- The call `extract_claims(session.original_text, short_user_id)` at line 135 of
`factcheck.py`: `extract_claims` (extractor.py) declares three required positional
parameters `(text, short_user_id, trace_id)`, so this two-argument call raises
`TypeError` before the extractor body runs. -/
def call_extract_claims_with_two_args (text : String) (short_user_id : String) :
    Except String (List Claim) :=
  .error "extract_claims() missing 1 required positional argument: trace_id"

/-- `process_fact_check_session(session, short_user_id)`: extract, short-circuit on
zero claims with `completed_at` stamped, otherwise verify all claims (default
`concurrency_limit = 10`, modelled by the complete sequential schedule) and stamp
`completed_at`.  The first statement is the two-argument `extract_claims` call. -/
def process_fact_check_session (factCheckTool : String)
    (tools : List (String × FactCheckTool)) (session : FactCheckSession)
    (short_user_id : String) (now : Nat) : Except String FactCheckSession := do
  let claims ← call_extract_claims_with_two_args session.original_text short_user_id
  let session := { session with claims := claims }
  if session.claims.isEmpty then
    return { session with completed_at := some now }
  else
    let results := verify_multiple_claims factCheckTool tools session.claims short_user_id now
    return { session with verification_results := results, completed_at := some now }

/-! ## Helper lemmas -/

/-- Whatever the configured tool name, dispatch through the built-in registry always
stamps the result with `str(claim.id)`: both built-in entries fail the two-argument
call and fall into the handler, and an unknown name takes the unknown-tool path. -/
theorem verify_single_claim_claim_id_default (name : String) (genv : GoogleApiOutcome)
    (pPrompt : Option String) (pOracle : Nat → PerplexityCallOutcome)
    (claim : Claim) (uid : String) (now : Nat) :
    (verify_single_claim name (fact_check_tools genv pPrompt pOracle now) claim uid now).claim_id
      = toString claim.id := by
  cases h1 : (name == "google") <;> cases h2 : (name == "perplexity") <;>
    simp [verify_single_claim, fact_check_tools, List.lookup, h1, h2, callWithTwoArgs,
      mkErrorResult]

/-- A name other than the two built-in keys is absent from the registry. -/
theorem fact_check_tools_lookup_none (name : String) (genv : GoogleApiOutcome)
    (pPrompt : Option String) (pOracle : Nat → PerplexityCallOutcome) (now : Nat)
    (h1 : name ≠ "google") (h2 : name ≠ "perplexity") :
    (fact_check_tools genv pPrompt pOracle now).lookup name = none := by
  have g1 : (name == "google") = false := beq_eq_false_iff_ne.mpr h1
  have g2 : (name == "perplexity") = false := beq_eq_false_iff_ne.mpr h2
  simp [fact_check_tools, List.lookup, g1, g2]

/-- An unknown configured name makes `verify_single_claim` return the
`Unknown fact-check tool` result. -/
theorem verify_single_claim_unknown (name : String) (tools : List (String × FactCheckTool))
    (claim : Claim) (uid : String) (now : Nat) (h : tools.lookup name = none) :
    verify_single_claim name tools claim uid now
      = mkErrorResult claim ("Unknown fact-check tool: " ++ name) now := by
  simp [verify_single_claim, h]

/-- When at least one semaphore permit exists, the batch can always be scheduled to
completion from any intermediate state. -/
theorem batchRun_complete_exists (name : String) (tools : List (String × FactCheckTool))
    (uid : String) (now limit : Nat) (hl : 1 ≤ limit) :
    ∀ pending results, ∃ s, BatchRun name tools uid now limit ⟨pending, results⟩ s ∧
      s.pending = [] := by
  intro pending
  induction pending with
  | nil => exact fun results => ⟨⟨[], results⟩, Relation.ReflTransGen.refl, rfl⟩
  | cons c cs ih =>
    intro results
    obtain ⟨s, hrun, hfin⟩ := ih (results ++ [verify_single_claim name tools c uid now])
    have hstep : BatchStep name tools uid now limit ⟨c :: cs, results⟩
        ⟨(c :: cs).erase c, results ++ [verify_single_claim name tools c uid now]⟩ :=
      BatchStep.run c ⟨c :: cs, results⟩ (by simp) hl
    rw [List.erase_cons_head] at hstep
    exact ⟨s, Relation.ReflTransGen.head hstep hrun, hfin⟩

/-- Scheduling invariant: the results produced so far together with the results of
the still-pending tasks form a fixed multiset. -/
theorem batchRun_results_perm (name : String) (tools : List (String × FactCheckTool))
    (uid : String) (now limit : Nat) {s₀ s : BatchState}
    (h : BatchRun name tools uid now limit s₀ s) :
    (s.results ++ s.pending.map (fun c => verify_single_claim name tools c uid now)).Perm
      (s₀.results ++ s₀.pending.map (fun c => verify_single_claim name tools c uid now)) := by
  induction h with
  | refl => exact List.Perm.refl _
  | tail _ step ih =>
    rename_i mid fin hprev
    cases step with
    | run c s hmem hsem =>
      refine List.Perm.trans ?_ ih
      have hperm : (mid.pending.map (fun x => verify_single_claim name tools x uid now)).Perm
          (verify_single_claim name tools c uid now ::
            ((mid.pending.erase c).map (fun x => verify_single_claim name tools x uid now))) := by
        simpa using
          (List.perm_cons_erase hmem).map (fun x => verify_single_claim name tools x uid now)
      have hleft := List.Perm.append_left mid.results hperm.symm
      simpa [List.append_assoc] using hleft

/-- Every result present after any number of scheduling steps is either an initial
result or the `verify_single_claim` output of some claim. -/
theorem batchRun_results_mem (name : String) (tools : List (String × FactCheckTool))
    (uid : String) (now limit : Nat) {s₀ s : BatchState}
    (h : BatchRun name tools uid now limit s₀ s) :
    ∀ r ∈ s.results, r ∈ s₀.results ∨ ∃ c, r = verify_single_claim name tools c uid now := by
  induction h with
  | refl => exact fun r hr => .inl hr
  | tail _ step ih =>
    cases step with
    | run c s₁ hmem hsem =>
      intro r hr
      rcases List.mem_append.mp hr with hmem1 | hmem2
      · exact ih r hmem1
      · exact .inr ⟨c, List.mem_singleton.mp hmem2⟩

/-! ## Claim theorems -/

/-- C4: dispatch through `verify_single_claim` to either built-in tool name
("google" or "perplexity") returns a `VerificationResult` with `error` set and both
review fields `None`, for every claim and every backend environment: the coordinator
calls the registered tool with exactly two arguments, while `google_claim_check`
accepts one parameter and `perplexity_claim_check` requires three, so the call raises
`TypeError`, which the per-claim wrapper converts into the `error` field; no provider
review is ever produced through this dispatch path. -/
theorem builtin_dispatch_arity_mismatch (genv : GoogleApiOutcome) (pPrompt : Option String)
    (pOracle : Nat → PerplexityCallOutcome) (claim : Claim) (uid : String) (now : Nat) :
    (verify_single_claim "google" (fact_check_tools genv pPrompt pOracle now) claim uid now
        = mkErrorResult claim tooManyArgsMsg now ∧
      (verify_single_claim "google" (fact_check_tools genv pPrompt pOracle now)
          claim uid now).error.isSome = true ∧
      (verify_single_claim "google" (fact_check_tools genv pPrompt pOracle now)
          claim uid now).google_claim_reviews = none ∧
      (verify_single_claim "google" (fact_check_tools genv pPrompt pOracle now)
          claim uid now).perplexity_claim_reviews = none) ∧
    (verify_single_claim "perplexity" (fact_check_tools genv pPrompt pOracle now) claim uid now
        = mkErrorResult claim missingArgMsg now ∧
      (verify_single_claim "perplexity" (fact_check_tools genv pPrompt pOracle now)
          claim uid now).error.isSome = true ∧
      (verify_single_claim "perplexity" (fact_check_tools genv pPrompt pOracle now)
          claim uid now).google_claim_reviews = none ∧
      (verify_single_claim "perplexity" (fact_check_tools genv pPrompt pOracle now)
          claim uid now).perplexity_claim_reviews = none) := by
  refine ⟨⟨?_, ?_, ?_, ?_⟩, ⟨?_, ?_, ?_, ?_⟩⟩ <;>
    simp [verify_single_claim, fact_check_tools, List.lookup, callWithTwoArgs, mkErrorResult]

/-- C6: if the configured tool name is absent from the registry, verification fails
uniformly: `verify_single_claim` returns, for every claim, the result carrying
`error = "Unknown fact-check tool: <name>"` and no provider reviews, and in every
finished batch schedule every produced result carries exactly that error and no
reviews.  No exception escapes: `verify_single_claim` is total. -/
theorem unknown_tool_uniform_error (name : String) (genv : GoogleApiOutcome)
    (pPrompt : Option String) (pOracle : Nat → PerplexityCallOutcome)
    (claims : List Claim) (uid : String) (now limit : Nat)
    (h1 : name ≠ "google") (h2 : name ≠ "perplexity") :
    (∀ claim, verify_single_claim name (fact_check_tools genv pPrompt pOracle now) claim uid now
        = mkErrorResult claim ("Unknown fact-check tool: " ++ name) now) ∧
    (∀ s, BatchRun name (fact_check_tools genv pPrompt pOracle now) uid now limit
        ⟨claims, []⟩ s → s.finished →
      ∀ r ∈ s.results, r.error = some ("Unknown fact-check tool: " ++ name) ∧
        r.google_claim_reviews = none ∧ r.perplexity_claim_reviews = none) := by
  have hnone := fact_check_tools_lookup_none name genv pPrompt pOracle now h1 h2
  have hsingle : ∀ claim,
      verify_single_claim name (fact_check_tools genv pPrompt pOracle now) claim uid now
        = mkErrorResult claim ("Unknown fact-check tool: " ++ name) now :=
    fun claim => verify_single_claim_unknown name _ claim uid now hnone
  refine ⟨hsingle, fun s hrun _ r hr => ?_⟩
  rcases batchRun_results_mem name _ uid now limit hrun r hr with hmem | ⟨c, hc⟩
  · simp at hmem
  · rw [hc, hsingle c]
    exact ⟨rfl, rfl, rfl⟩

/-- C6 witness: with configured name "duckduckgo" the single-claim verification of a
concrete claim yields exactly the unknown-tool error result. -/
theorem unknown_tool_uniform_error_witness :
    ("duckduckgo" ≠ "google" ∧ "duckduckgo" ≠ "perplexity") ∧
    verify_single_claim "duckduckgo"
        (fact_check_tools (.response ⟨none⟩) none (fun _ => .empty) 0)
        ⟨0, "x", none⟩ "u" 0
      = mkErrorResult ⟨0, "x", none⟩ ("Unknown fact-check tool: " ++ "duckduckgo") 0 :=
  ⟨⟨by decide, by decide⟩,
    (unknown_tool_uniform_error "duckduckgo" (.response ⟨none⟩) none (fun _ => .empty)
      [] "u" 0 1 (by decide) (by decide)).1 ⟨0, "x", none⟩⟩

/-- C8: for empty or absent input text, `extract_claims` returns the empty sequence
and issues zero completion calls; empty input is not an error. -/
theorem extract_empty_input_no_calls (env : ExtractEnv) (uid tid : String) :
    extract_claims env none uid tid = ([], 0) ∧
    extract_claims env (some "") uid tid = ([], 0) := by
  constructor
  · rfl
  · simp [extract_claims]

/-- C9: when the Google claim-search call succeeds but matches zero review entries,
`google_claim_check` returns a result with `google_claim_reviews = none` and
`error = none`. -/
theorem google_zero_matches_no_error (resp : GoogleSearchResponse) (claim : Claim)
    (now : Nat) (h : collectGoogleReviews resp = []) :
    google_claim_check (.response resp) claim now
      = .ok { claim_id := toString claim.id, claim := claim.content,
              google_claim_reviews := none, perplexity_claim_reviews := none,
              error := none, verified_at := some now } := by
  simp [google_claim_check, h]

/-- C9 witness: the response with no `claims` key has zero matches, and the check on
a concrete claim returns the review-free, error-free result. -/
theorem google_zero_matches_no_error_witness :
    collectGoogleReviews ⟨none⟩ = [] ∧
    google_claim_check (.response ⟨none⟩) ⟨3, "x", none⟩ 7
      = .ok { claim_id := toString (3 : Nat), claim := "x",
              google_claim_reviews := none, perplexity_claim_reviews := none,
              error := none, verified_at := some 7 } :=
  ⟨rfl, google_zero_matches_no_error ⟨none⟩ ⟨3, "x", none⟩ 7 rfl⟩

/-- C1: for every finite list of claims and every `concurrency_limit ≥ 1`, the batch
verification with the built-in registry (under any configured tool name, in
particular when the selected verifier raises on every claim) can run to completion,
and every finished schedule yields exactly one `VerificationResult` per input claim,
with the multiset of `claim_id` values equal to the multiset of `str(id)` of the
input claims — no claim lost, none duplicated. -/
theorem verify_multiple_claims_one_result_per_claim (name : String)
    (genv : GoogleApiOutcome) (pPrompt : Option String)
    (pOracle : Nat → PerplexityCallOutcome) (claims : List Claim)
    (uid : String) (now limit : Nat) (hl : 1 ≤ limit) :
    (∃ s, BatchRun name (fact_check_tools genv pPrompt pOracle now) uid now limit
        ⟨claims, []⟩ s ∧ s.finished) ∧
    (∀ s, BatchRun name (fact_check_tools genv pPrompt pOracle now) uid now limit
        ⟨claims, []⟩ s → s.finished →
      s.results.length = claims.length ∧
      (s.results.map (fun r => r.claim_id)).Perm (claims.map (fun c => toString c.id))) := by
  constructor
  · exact batchRun_complete_exists name _ uid now limit hl claims []
  · intro s hrun hfin
    have hperm := batchRun_results_perm name (fact_check_tools genv pPrompt pOracle now)
      uid now limit hrun
    rw [hfin] at hperm
    simp only [List.map_nil, List.append_nil, List.nil_append] at hperm
    have hids : (claims.map (fun c => verify_single_claim name
        (fact_check_tools genv pPrompt pOracle now) c uid now)).map (fun r => r.claim_id)
        = claims.map (fun c => toString c.id) := by
      rw [List.map_map]
      exact List.map_congr_left (fun c _ =>
        verify_single_claim_claim_id_default name genv pPrompt pOracle c uid now)
    refine ⟨?_, ?_⟩
    · simpa using hperm.length_eq
    · have := hperm.map (fun r => r.claim_id)
      rw [hids] at this
      exact this

/-- C1 witness: a concrete two-claim batch with limit 1 and a perplexity backend that
fails every attempt still admits a finished schedule. -/
theorem verify_multiple_claims_one_result_per_claim_witness :
    1 ≤ 1 ∧
    ∃ s, BatchRun "perplexity" (fact_check_tools (.response ⟨none⟩) none (fun _ => .empty) 0)
        "u" 0 1 ⟨[⟨0, "a", none⟩, ⟨1, "b", none⟩], []⟩ s ∧ s.finished :=
  ⟨Nat.le_refl 1,
    (verify_multiple_claims_one_result_per_claim "perplexity" (.response ⟨none⟩) none
      (fun _ => .empty) [⟨0, "a", none⟩, ⟨1, "b", none⟩] "u" 0 1 (Nat.le_refl 1)).1⟩

/-- C10: with `concurrency_limit ≥ 1` the batch terminates — a finished schedule
exists from the initial state — while with `concurrency_limit = 0` and a non-empty
claim list the initial state is not finished and admits no step at all: no task can
ever acquire the semaphore, so the gather barrier never completes. -/
theorem verify_multiple_claims_termination (name : String) (genv : GoogleApiOutcome)
    (pPrompt : Option String) (pOracle : Nat → PerplexityCallOutcome)
    (claims : List Claim) (uid : String) (now limit : Nat)
    (hl : 1 ≤ limit) (hne : claims ≠ []) :
    (∃ s, BatchRun name (fact_check_tools genv pPrompt pOracle now) uid now limit
        ⟨claims, []⟩ s ∧ s.finished) ∧
    (¬ (⟨claims, []⟩ : BatchState).finished ∧
      ∀ s, ¬ BatchStep name (fact_check_tools genv pPrompt pOracle now) uid now 0
        ⟨claims, []⟩ s) := by
  refine ⟨batchRun_complete_exists name _ uid now limit hl claims [], hne, ?_⟩
  intro s hstep
  cases hstep with
  | run c s hmem hsem => exact Nat.not_succ_le_zero 0 hsem

/-- C10 witness: one concrete claim, limit 1: a finished schedule exists, and with
limit 0 the initial state is stuck and unfinished. -/
theorem verify_multiple_claims_termination_witness :
    (1 ≤ 1 ∧ [(⟨0, "a", none⟩ : Claim)] ≠ []) ∧
    ((∃ s, BatchRun "perplexity" (fact_check_tools (.response ⟨none⟩) none (fun _ => .empty) 0)
        "u" 0 1 ⟨[⟨0, "a", none⟩], []⟩ s ∧ s.finished) ∧
     (¬ (⟨[⟨0, "a", none⟩], []⟩ : BatchState).finished ∧
      ∀ s, ¬ BatchStep "perplexity" (fact_check_tools (.response ⟨none⟩) none (fun _ => .empty) 0)
        "u" 0 0 ⟨[⟨0, "a", none⟩], []⟩ s)) :=
  ⟨⟨Nat.le_refl 1, by decide⟩,
    verify_multiple_claims_termination "perplexity" (.response ⟨none⟩) none (fun _ => .empty)
      [⟨0, "a", none⟩] "u" 0 1 (Nat.le_refl 1) (by decide)⟩

/-- C2 counterexample: for the malformed-but-repairable payload
`{"claims": ["a","b"],}` (trailing comma), `extract_claims` returns the empty
sequence, not a sequence of 2 claims: after repair the mapping has a `claims` field
and is validated against `ExtractedClaims`, whose required `original` and `english`
fields are missing, so validation fails and the error path returns `[]`. -/
theorem extract_trailing_comma_payload_yields_empty :
    (extract_claims ⟨some "p", .content "\x7b\"claims\": [\"a\",\"b\"],\x7d"⟩
        (some "t") "u" "tr").1 = [] ∧
    ¬ ((extract_claims ⟨some "p", .content "\x7b\"claims\": [\"a\",\"b\"],\x7d"⟩
        (some "t") "u" "tr").1.length = 2) := by
  constructor
  · rfl
  · decide

/-- C2 amended: for the malformed-but-repairable payload `{"claims": ["a","b"],}`,
`extract_claims` returns the empty sequence, because the repaired mapping is
validated against `ExtractedClaims`, which also requires `original` and `english`
string fields; when the payload additionally carries those fields (still with the
trailing comma), structural repair succeeds, validation passes and each string item
becomes one `Claim`, giving exactly 2 claims. -/
theorem extract_trailing_comma_requires_all_fields :
    (extract_claims ⟨some "p", .content "\x7b\"claims\": [\"a\",\"b\"],\x7d"⟩
        (some "t") "u" "tr").1 = [] ∧
    ((extract_claims
        ⟨some "p",
         .content "\x7b\"claims\": [\"a\",\"b\"], \"original\": \"o\", \"english\": \"e\",\x7d"⟩
        (some "t") "u" "tr").1.map Claim.content = ["a", "b"] ∧
     (extract_claims
        ⟨some "p",
         .content "\x7b\"claims\": [\"a\",\"b\"], \"original\": \"o\", \"english\": \"e\",\x7d"⟩
        (some "t") "u" "tr").1.length = 2) := by
  exact ⟨rfl, rfl, rfl⟩

/-- C3 counterexample: with a backend yielding no valid response on all 3 attempts,
`get_perplexity_claim_reviews` raises the terminal error, but `perplexity_claim_check`
(the verify operation) does not propagate it: it returns (`.ok`) a
`VerificationResult` carrying the error text itself, so no exception reaches the
coordinator's per-task wrapper from this path. -/
theorem perplexity_exhausted_returns_result_not_raise :
    get_perplexity_claim_reviews (fun _ => .empty) = .error exhaustedRetriesMsg ∧
    perplexity_claim_check (some "p") (fun _ => .empty) ⟨0, "x", none⟩ "u" "t" 5
      = .ok (create_verification_result ⟨0, "x", none⟩ none
          (some ("Error during fact-check: " ++ exhaustedRetriesMsg)) 5) ∧
    ∀ e, ¬ (perplexity_claim_check (some "p") (fun _ => .empty) ⟨0, "x", none⟩ "u" "t" 5
        = Except.error e) := by
  refine ⟨rfl, rfl, fun e h => ?_⟩
  rw [show perplexity_claim_check (some "p") (fun _ => .empty) ⟨0, "x", none⟩ "u" "t" 5
      = Except.ok (create_verification_result ⟨0, "x", none⟩ none
          (some ("Error during fact-check: " ++ exhaustedRetriesMsg)) 5) from rfl] at h
  exact Except.noConfusion h

/-- C3 amended: when all attempts are exhausted without a valid, non-empty response,
`get_perplexity_claim_reviews` raises a terminal error, and it is
`perplexity_claim_check` itself — not the coordinator's per-task wrapper — that
catches the exception and converts it into a `VerificationResult` carrying
`error = "Error during fact-check: <message>"` and no reviews. -/
theorem perplexity_exhausted_caught_inside_check (prompt : String)
    (oracle : Nat → PerplexityCallOutcome) (claim : Claim) (uid tid : String)
    (now : Nat) (e : String)
    (h : get_perplexity_claim_reviews oracle = .error e) :
    perplexity_claim_check (some prompt) oracle claim uid tid now
      = .ok (create_verification_result claim none
          (some ("Error during fact-check: " ++ e)) now) := by
  simp [perplexity_claim_check, h]

/-- C3 witness: a backend raising on every attempt exhausts the retries with the last
exception, and the check converts it into an error-carrying result. -/
theorem perplexity_exhausted_caught_inside_check_witness :
    get_perplexity_claim_reviews (fun _ => PerplexityCallOutcome.raises "boom")
      = .error "boom" ∧
    perplexity_claim_check (some "p") (fun _ => PerplexityCallOutcome.raises "boom")
        ⟨1, "y", none⟩ "u" "t" 3
      = .ok (create_verification_result ⟨1, "y", none⟩ none
          (some ("Error during fact-check: " ++ "boom")) 3) :=
  ⟨rfl, perplexity_exhausted_caught_inside_check "p" (fun _ => .raises "boom")
    ⟨1, "y", none⟩ "u" "t" 3 "boom" rfl⟩

/-- C5 evidence: `process_fact_check_session` raises `TypeError` for every session —
including one whose text would yield zero claims — because it calls `extract_claims`
with two positional arguments while the extractor declares three; the exception
propagates to the caller instead of the short-circuit returning a completed empty
session. -/
theorem process_session_raises_type_error :
    process_fact_check_session "perplexity"
        (fact_check_tools (.response ⟨none⟩) none (fun _ => .empty) 0)
        ⟨"u", 0, "", [], [], some 0, none⟩ "u" 0
      = .error "extract_claims() missing 1 required positional argument: trace_id" ∧
    ∀ session : FactCheckSession,
      process_fact_check_session "perplexity"
        (fact_check_tools (.response ⟨none⟩) none (fun _ => .empty) 0) session "u" 0
      = .error "extract_claims() missing 1 required positional argument: trace_id" :=
  ⟨rfl, fun _ => rfl⟩

/-- C7: when the backend returns a well-formed response whose `claim_reviews` list is
empty on the first attempt, the retry loop stops after that single attempt and the
verifier returns a `VerificationResult` with `error = "No claim reviews returned"`
and no reviews. -/
theorem perplexity_empty_reviews_terminal_single_attempt
    (oracle : Nat → PerplexityCallOutcome) (raw : String) (cits : Option (List String))
    (review : PerplexityClaimsReview) (prompt : String) (claim : Claim)
    (uid tid : String) (now : Nat)
    (h0 : oracle 0 = .content raw cits)
    (hp : parse_raw_content raw cits = .ok review)
    (he : review.claim_reviews = []) :
    get_perplexity_claim_reviews oracle = .ok (review, 1) ∧
    perplexity_claim_check (some prompt) oracle claim uid tid now
      = .ok (create_verification_result claim none (some "No claim reviews returned") now) := by
  have h1 : get_perplexity_claim_reviews oracle = .ok (review, 1) := by
    have hr : List.range MAX_RETRIES = [0, 1, 2] := rfl
    unfold get_perplexity_claim_reviews
    rw [hr]
    simp [perplexityAttemptLoop, h0, hp]
  refine ⟨h1, ?_⟩
  simp [perplexity_claim_check, h1, he]

/-- C7 witness: the concrete payload `{"claim_reviews": []}` parses to the empty
review on attempt 0, the loop uses exactly one attempt, and the check returns the
"No claim reviews returned" result. -/
theorem perplexity_empty_reviews_terminal_single_attempt_witness :
    ((fun _ : Nat => PerplexityCallOutcome.content "\x7b\"claim_reviews\": []\x7d" none) 0
        = PerplexityCallOutcome.content "\x7b\"claim_reviews\": []\x7d" none) ∧
    parse_raw_content "\x7b\"claim_reviews\": []\x7d" none
      = .ok (⟨[], none⟩ : PerplexityClaimsReview) ∧
    (⟨[], none⟩ : PerplexityClaimsReview).claim_reviews = [] ∧
    (get_perplexity_claim_reviews
        (fun _ => PerplexityCallOutcome.content "\x7b\"claim_reviews\": []\x7d" none)
      = .ok (⟨[], none⟩, 1) ∧
     perplexity_claim_check (some "p")
        (fun _ => PerplexityCallOutcome.content "\x7b\"claim_reviews\": []\x7d" none)
        ⟨0, "x", none⟩ "u" "t" 5
      = .ok (create_verification_result ⟨0, "x", none⟩ none
          (some "No claim reviews returned") 5)) :=
  ⟨rfl, rfl, rfl,
    perplexity_empty_reviews_terminal_single_attempt
      (fun _ => PerplexityCallOutcome.content "\x7b\"claim_reviews\": []\x7d" none)
      "\x7b\"claim_reviews\": []\x7d" none ⟨[], none⟩ "p" ⟨0, "x", none⟩ "u" "t" 5
      rfl rfl rfl⟩
